import Mathlib

/-!
# The embedding API of `src/jlapi.c`

A shallow embedding of the native embedding boundary of the runtime
(`jl_init_with_image`, `jl_eval_string`, `jl_call` and its fixed-arity
forms, `jl_get_field`, `jl_sigatomic_begin` / `jl_sigatomic_end`, the
exception accessors) as state-passing functions over the process-wide
variables the C file reads and writes.

The parser, the evaluator, `jl_apply`, the field resolver and the runtime
bootstrap are external collaborators: they are parameters of the model
(`Collaborators`) and every theorem quantifies over all of them.
-/

namespace JlApi

/-! ## Data model -/

/-- A managed value as seen by native code (`jl_value_t *` that is not `NULL`). -/
abbrev Handle := Nat

/-- One root frame: its slots in order, `none` being the empty slot. -/
abbrev RootFrame := List (Option Handle)

/-- The process-wide variables of the runtime that `jlapi.c` touches.
`jl_exception_in_transit = none` stands for the sentinel `jl_null`,
`jl_main_module = none` for `NULL`; `julia_home` and `image_file` are the two
fields of `jl_compileropts` written by `jl_init_with_image`; `heap` is the
rest of the runtime state, which this file never inspects. -/
structure Runtime where
  jl_pgcstack : List RootFrame
  jl_exception_in_transit : Option Handle
  jl_defer_signal : Int
  jl_main_module : Option Handle
  julia_home : Option String
  image_file : Option String
  heap : Nat
deriving DecidableEq, Repr

/-- What an external collaborator does when invoked in a given runtime state:
it returns a value, or it signals an error; either way it may have changed
the runtime state. -/
inductive Signal (α : Type) where
  | value (a : α) (s : Runtime)
  | error (e : Handle) (s : Runtime)
deriving DecidableEq, Repr

/-- The external functions `jlapi.c` calls. None of them is defined in this
file of the repository; each is an arbitrary function here. -/
structure Collaborators where
  libsupport_init : Runtime → Runtime
  julia_init : Runtime → Runtime
  jl_parse_input_line : String → Runtime → Signal Handle
  jl_toplevel_eval : Handle → Runtime → Signal Handle
  jl_apply : Handle → List Handle → Runtime → Signal Handle
  jl_symbol : String → Handle
  jl_typeof : Handle → Handle
  jl_field_index : Handle → Handle → Runtime → Signal Nat
  jl_get_nth_field : Handle → Nat → Runtime → Signal Handle
  jl_error : String → Handle

/-- A request sent across the boundary to a collaborator. -/
inductive Request where
  | libsupport_init
  | julia_init
  | jl_parse_input_line (str : String)
  | jl_toplevel_eval (ast : Handle)
  | jl_apply (f : Handle) (args : List Handle)
  | jl_field_index (t : Handle) (s : Handle)
  | jl_get_nth_field (o : Handle) (i : Nat)
deriving DecidableEq, Repr

/-- One entry of the observation log: which collaborator was invoked, and the
runtime state it was invoked in. -/
structure Event where
  request : Request
  seen : Runtime
deriving DecidableEq, Repr

/-- The runtime state together with the log of collaborator invocations made
so far. Collaborators see and change `rt` only. -/
structure World where
  rt : Runtime
  trace : List Event
deriving DecidableEq, Repr

/-- Result of running a piece of boundary code: it completes with a value, or
an error is unwinding towards the innermost enclosing handler. -/
inductive Res (α : Type) where
  | ok (a : α) (w : World)
  | unwind (w : World)
deriving DecidableEq, Repr

/-- The world a run ends in. -/
def Res.world {α : Type} : Res α → World
  | .ok _ w => w
  | .unwind w => w

/-- The value a run completes with, if it completes. -/
def Res.result {α : Type} : Res α → Option α
  | .ok a _ => some a
  | .unwind _ => none

/-- Boundary code: a function of the world that completes or unwinds. -/
def Api (α : Type) : Type := World → Res α

/-- Sequencing of boundary code; an unwinding error skips the continuation. -/
def Api.bind {α β : Type} (m : Api α) (k : α → Api β) : Api β := fun w =>
  match m w with
  | .ok a w1 => k a w1
  | .unwind w1 => .unwind w1

instance : Monad Api where
  pure a := fun w => .ok a w
  bind := Api.bind

/-! ## Runtime mechanisms declared outside `jlapi.c` -/

/-- Modelled from the spec: `jl_throw` of julia.h, absent from src. The
error raised by a collaborator is deposited in the Exception Channel by the
unwind path and control transfers to the innermost handler (spec 4.4: the
error "arrives there because the external evaluator's own unwind path
deposits it"). -/
def jl_throw {α : Type} (e : Handle) : Api α := fun w =>
  .unwind { w with rt := { w.rt with jl_exception_in_transit := some e } }

/-- Modelled from the spec: the call of an external collaborator, whose code is
not under src. A collaborator that returns normally has closed every frame it
opened (spec 3: frames "never outlive the call that opened them"), so the Root
Stack on normal return is the one at the call; on error the state at the raise
point, whatever its Root Stack, is handed to `jl_throw`. The invocation is
logged with the state the collaborator sees. -/
def invoke {α : Type} (req : Request) (c : Runtime → Signal α) : Api α := fun w =>
  match c w.rt with
  | .value a s =>
      .ok a { rt := { s with jl_pgcstack := w.rt.jl_pgcstack },
              trace := w.trace ++ [⟨req, w.rt⟩] }
  | .error e s =>
      jl_throw e { rt := s, trace := w.trace ++ [⟨req, w.rt⟩] }

/-- Modelled from the spec: the call of an external collaborator that returns
no value and is not expected to raise (`libsupport_init`, `julia_init`: "the
runtime's own bootstrap"), logged like `invoke`. -/
def invokeVoid (req : Request) (c : Runtime → Runtime) : Api Unit := fun w =>
  .ok () { rt := { c w.rt with jl_pgcstack := w.rt.jl_pgcstack },
           trace := w.trace ++ [⟨req, w.rt⟩] }

/-- Modelled from the spec: the `JL_TRY { body } JL_CATCH { handler }` macros
of julia.h, absent from src. The body runs; if an error unwinds out of it
the handler runs with the Root Stack as it was on entry to the protected
region (spec 3: a frame is popped "on every exit path of that call — normal
return or error unwind"; spec 4.4: on failure the dispatcher "still pops the
RootFrame"). -/
def JL_TRY {α : Type} (body : Api α) (handler : Api α) : Api α := fun w =>
  match body w with
  | .ok a w1 => .ok a w1
  | .unwind w1 =>
      handler { w1 with rt := { w1.rt with jl_pgcstack := w.rt.jl_pgcstack } }

/-- Modelled from the spec: `pushFrame(capacity)` followed by the writing of
every slot, the common part of the `JL_GC_PUSH1` .. `JL_GC_PUSH4` and
`JL_GC_PUSHARGS` macros of julia.h: a new frame becomes the top of the Root
Stack. -/
def JL_GC_PUSH (slots : RootFrame) : Api Unit := fun w =>
  .ok () { w with rt := { w.rt with jl_pgcstack := slots :: w.rt.jl_pgcstack } }

/-- Modelled from the spec: `JL_GC_PUSH1(&a)` of julia.h, a one-slot frame
rooting the variable `a`. -/
def JL_GC_PUSH1 (a : Handle) : Api Unit :=
  JL_GC_PUSH [some a]

/-- Modelled from the spec: `JL_GC_PUSH2(&a, &b)` of julia.h. -/
def JL_GC_PUSH2 (a b : Handle) : Api Unit :=
  JL_GC_PUSH [some a, some b]

/-- Modelled from the spec: `JL_GC_PUSH3(&a, &b, &c)` of julia.h. -/
def JL_GC_PUSH3 (a b c : Handle) : Api Unit :=
  JL_GC_PUSH [some a, some b, some c]

/-- Modelled from the spec: `JL_GC_PUSH4(&a, &b, &c, &d)` of julia.h. -/
def JL_GC_PUSH4 (a b c d : Handle) : Api Unit :=
  JL_GC_PUSH [some a, some b, some c, some d]

/-- Modelled from the spec: `JL_GC_PUSHARGS(argv, n)` of julia.h, that is
`pushFrame(capacity)`: "reserves capacity slots, all initialized to empty". -/
def JL_GC_PUSHARGS (n : Nat) : Api Unit :=
  JL_GC_PUSH (List.replicate n none)

/-- Modelled from the spec: `writeSlot(frame, index, handle)` on the frame just
pushed with `JL_GC_PUSHARGS`, the C assignment `argv[i] = x`. -/
def writeSlot (i : Nat) (x : Option Handle) : Api Unit := fun w =>
  match w.rt.jl_pgcstack with
  | [] => .ok () w
  | fr :: rest =>
      .ok () { w with rt := { w.rt with jl_pgcstack := fr.set i x :: rest } }

/-- Modelled from the spec: `JL_GC_POP()` of julia.h, `popFrame`: removes the
most recently pushed frame. -/
def JL_GC_POP : Api Unit := fun w =>
  .ok () { w with rt := { w.rt with jl_pgcstack := w.rt.jl_pgcstack.tail } }

/-- Modelled from the spec: `JL_SIGATOMIC_BEGIN()` of julia.h; `begin()`
"increments SigatomicCounter unconditionally". The counter is the spec's
"process-wide integer". -/
def JL_SIGATOMIC_BEGIN : Api Unit := fun w =>
  .ok () { w with rt := { w.rt with jl_defer_signal := w.rt.jl_defer_signal + 1 } }

/-- Modelled from the spec: `JL_SIGATOMIC_END()` of julia.h, the decrement of
the counter. -/
def JL_SIGATOMIC_END : Api Unit := fun w =>
  .ok () { w with rt := { w.rt with jl_defer_signal := w.rt.jl_defer_signal - 1 } }

/-- Modelled from the spec: `jl_error(msg)` of the runtime, absent from src:
it builds the error value for `msg` and raises it; it does not return. -/
def jl_error {α : Type} (C : Collaborators) (msg : String) : Api α :=
  jl_throw (C.jl_error msg)

/-! ## `jlapi.c` -/

/-- Source `jl_is_initialized` (jlapi.c line 26): `return jl_main_module!=NULL;`. -/
def jl_is_initialized (s : Runtime) : Bool :=
  s.jl_main_module != none

/-- Source `jl_exception_occurred` (lines 73-77): `NULL` when the channel holds `jl_null`, the
value in transit otherwise. -/
def jl_exception_occurred (s : Runtime) : Option Handle :=
  if s.jl_exception_in_transit == none then none else s.jl_exception_in_transit

/-- Source `jl_exception_clear` (lines 79-82): `jl_exception_in_transit = jl_null`. -/
def jl_exception_clear : Api Unit := fun w =>
  .ok () { w with rt := { w.rt with jl_exception_in_transit := none } }

/-- Source `jl_eval_string(str)` (lines 56-71): inside the protected region, parse
the text, root the parsed form in a one-slot frame, evaluate it, pop, clear the
channel and return the value; the catch block returns `NULL`. -/
def jl_eval_string (C : Collaborators) (str : String) : Api (Option Handle) :=
  JL_TRY
    (do
      let ast ← invoke (.jl_parse_input_line str) (C.jl_parse_input_line str)
      JL_GC_PUSH1 ast
      let r ← invoke (.jl_toplevel_eval ast) (C.jl_toplevel_eval ast)
      JL_GC_POP
      jl_exception_clear
      pure (some r))
    (pure none)

/-- Assignment of `jl_compileropts.julia_home`. -/
def set_julia_home (p : Option String) : Api Unit := fun w =>
  .ok () { w with rt := { w.rt with julia_home := p } }

/-- Assignment of `jl_compileropts.image_file`. -/
def set_image_file (p : Option String) : Api Unit := fun w =>
  .ok () { w with rt := { w.rt with image_file := p } }

/-- Source `jl_init_with_image(julia_home_dir, image_relative_path)` (lines 34-49); a `NULL`
argument is `none`. -/
def jl_init_with_image (C : Collaborators) (julia_home_dir : Option String)
    (image_relative_path : Option String) : Api Unit := fun w =>
  if jl_is_initialized w.rt then .ok () w
  else
    (do
      invokeVoid .libsupport_init C.libsupport_init
      set_julia_home julia_home_dir
      if image_relative_path != none then
        set_image_file image_relative_path
      invokeVoid .julia_init C.julia_init
      let _ ← jl_eval_string C "Base.init_parallel()"
      let _ ← jl_eval_string C "Base.init_bind_addr(ARGS)"
      let _ ← jl_eval_string C "Base.init_head_sched()"
      jl_exception_clear) w

/-- Source `jl_init(julia_home_dir)` (lines 51-54). -/
def jl_init (C : Collaborators) (julia_home_dir : Option String) : Api Unit :=
  jl_init_with_image C julia_home_dir none

/-- The loop `for (; i < nargs+1; i++) argv[i] = args[i-1];` of `jl_call`,
with `k` the number of iterations left (`nargs + 1 - i`). -/
def jl_call_loop (args : List Handle) : Nat → Nat → Api Unit
  | _, 0 => pure ()
  | i, k + 1 => do
      writeSlot i (args[i - 1]?)
      jl_call_loop args (i + 1) k

/-- Source `jl_call(f, args, nargs)` (lines 120-137). The C pair `(args, nargs)` is the list `args`,
`nargs` its length. -/
def jl_call (C : Collaborators) (f : Handle) (args : List Handle) : Api (Option Handle) :=
  let nargs := args.length
  JL_TRY
    (do
      JL_GC_PUSHARGS (nargs + 1)
      writeSlot 0 (some f)
      jl_call_loop args 1 (nargs + 1 - 1)
      let v ← invoke (.jl_apply f args) (C.jl_apply f args)
      JL_GC_POP
      jl_exception_clear
      pure (some v))
    (pure none)

/-- Source `jl_call0(f)` (lines 139-152). -/
def jl_call0 (C : Collaborators) (f : Handle) : Api (Option Handle) :=
  JL_TRY
    (do
      JL_GC_PUSH1 f
      let v ← invoke (.jl_apply f []) (C.jl_apply f [])
      JL_GC_POP
      jl_exception_clear
      pure (some v))
    (pure none)

/-- Source `jl_call1(f, a)` (lines 154-167). -/
def jl_call1 (C : Collaborators) (f a : Handle) : Api (Option Handle) :=
  JL_TRY
    (do
      JL_GC_PUSH2 f a
      let v ← invoke (.jl_apply f [a]) (C.jl_apply f [a])
      JL_GC_POP
      jl_exception_clear
      pure (some v))
    (pure none)

/-- Source `jl_call2(f, a, b)` (lines 169-183). -/
def jl_call2 (C : Collaborators) (f a b : Handle) : Api (Option Handle) :=
  JL_TRY
    (do
      JL_GC_PUSH3 f a b
      let args := [a, b]
      let v ← invoke (.jl_apply f args) (C.jl_apply f args)
      JL_GC_POP
      jl_exception_clear
      pure (some v))
    (pure none)

/-- Source `jl_call3(f, a, b, c)` (lines 185-199). -/
def jl_call3 (C : Collaborators) (f a b c : Handle) : Api (Option Handle) :=
  JL_TRY
    (do
      JL_GC_PUSH4 f a b c
      let args := [a, b, c]
      let v ← invoke (.jl_apply f args) (C.jl_apply f args)
      JL_GC_POP
      jl_exception_clear
      pure (some v))
    (pure none)

/-- Source `jl_get_field(o, fld)` (lines 210-223). -/
def jl_get_field (C : Collaborators) (o : Handle) (fld : String) : Api (Option Handle) :=
  JL_TRY
    (do
      let s := C.jl_symbol fld
      let i ← invoke (.jl_field_index (C.jl_typeof o) s) (C.jl_field_index (C.jl_typeof o) s)
      let v ← invoke (.jl_get_nth_field o i) (C.jl_get_nth_field o i)
      jl_exception_clear
      pure (some v))
    (pure none)

/-- Source `jl_sigatomic_begin` (lines 225-228). -/
def jl_sigatomic_begin : Api Unit :=
  JL_SIGATOMIC_BEGIN

/-- Source `jl_sigatomic_end` (lines 230-235): the check of the counter against 0
raising the usage error, then the decrement. -/
def jl_sigatomic_end (C : Collaborators) : Api Unit := fun w =>
  (do
    if w.rt.jl_defer_signal == 0 then
      jl_error C "sigatomic_end called in non-sigatomic region"
    JL_SIGATOMIC_END) w

/-! ## Vocabulary for stating the properties -/

/-- The runtime state with one more frame on the Root Stack. -/
def rooted (fr : RootFrame) (s : Runtime) : Runtime :=
  { s with jl_pgcstack := fr :: s.jl_pgcstack }

/-- The runtime state a collaborator hands back on normal return to a caller
whose Root Stack is `stack`. -/
def returnedTo (stack : List RootFrame) (s : Runtime) : Runtime :=
  { s with jl_pgcstack := stack }

/-- The shape shared by the bodies of the dispatchers once the frame is
filled: push, invoke, pop, clear, inside the protected region. -/
def protectedCall {α : Type} (fr : RootFrame) (req : Request) (c : Runtime → Signal α) :
    Api (Option α) :=
  JL_TRY
    (do
      JL_GC_PUSH fr
      let v ← invoke req c
      JL_GC_POP
      jl_exception_clear
      pure (some v))
    (pure none)

/-- The result a dispatcher must produce when `jl_apply`, invoked on `f` and
`args` with the frame `top` pushed over the entry Root Stack of `w`, answers
`sig`: on a value, that value with the channel cleared; on an error, "none"
with the error in the channel; in both cases the state left by `jl_apply` with
the entry Root Stack back in place, and the invocation logged. -/
def dispatchOutcome (w : World) (f : Handle) (args : List Handle) (top : RootFrame) :
    Signal Handle → Res (Option Handle)
  | .value v s1 =>
      .ok (some v)
        { rt := { s1 with jl_pgcstack := w.rt.jl_pgcstack, jl_exception_in_transit := none },
          trace := w.trace ++ [⟨.jl_apply f args, rooted top w.rt⟩] }
  | .error e s1 =>
      .ok none
        { rt := { s1 with jl_pgcstack := w.rt.jl_pgcstack, jl_exception_in_transit := some e },
          trace := w.trace ++ [⟨.jl_apply f args, rooted top w.rt⟩] }

/-- Depth of the Root Stack. -/
def depth (w : World) : Nat :=
  w.rt.jl_pgcstack.length

/-- One use of the Call Dispatcher or of the Evaluation Entry Point by the
host. -/
inductive HostCall where
  | call (f : Handle) (args : List Handle)
  | call0 (f : Handle)
  | call1 (f a : Handle)
  | call2 (f a b : Handle)
  | call3 (f a b c : Handle)
  | eval (str : String)
deriving DecidableEq, Repr

/-- The API function a host call stands for. -/
def HostCall.run (C : Collaborators) : HostCall → Api (Option Handle)
  | .call f args => jl_call C f args
  | .call0 f => jl_call0 C f
  | .call1 f a => jl_call1 C f a
  | .call2 f a b => jl_call2 C f a b
  | .call3 f a b c => jl_call3 C f a b c
  | .eval str => jl_eval_string C str

/-- The worlds reached after each call of a sequence of host calls, in order. -/
def runCalls (C : Collaborators) : List HostCall → World → List World
  | [], _ => []
  | c :: cs, w => (c.run C w).world :: runCalls C cs (c.run C w).world

/-- The source texts submitted to the parser, in order: one per evaluation
request. -/
def evalRequests (t : List Event) : List String :=
  t.filterMap fun ev =>
    match ev.request with
    | .jl_parse_input_line str => some str
    | _ => none

/-- The code `m` run `n` times in a row. -/
def times {α : Type} (m : Api α) : Nat → Api Unit
  | 0 => pure ()
  | n + 1 => do
      let _ ← m
      times m n

/-- A call of the Signal-Atomic Guard. -/
inductive SigCall where
  | sigatomic_begin
  | sigatomic_end
deriving DecidableEq, Repr

/-- The API function a guard call stands for. -/
def SigCall.run (C : Collaborators) : SigCall → Api Unit
  | .sigatomic_begin => jl_sigatomic_begin
  | .sigatomic_end => jl_sigatomic_end C

/-- The worlds reached after each call of a sequence of guard calls, whether
the call returned or reported a usage error. -/
def runSig (C : Collaborators) : List SigCall → World → List World
  | [], _ => []
  | c :: cs, w => (c.run C w).world :: runSig C cs (c.run C w).world

/-! ## Sample collaborators and states -/

/-- A sample runtime: the parser rejects the text "bad", the evaluator rejects
the form 3, `jl_apply` of the callee 0 fails after leaving a frame of its own
on the Root Stack, and field symbols below 3 are declared. -/
def sampleRuntime : Collaborators where
  libsupport_init := fun s => s
  julia_init := fun s => { s with jl_main_module := some 1 }
  jl_parse_input_line := fun str s =>
    if str == "bad" then .error 99 s else .value str.length { s with heap := s.heap + 1 }
  jl_toplevel_eval := fun ast s =>
    if ast == 3 then .error 77 s else .value (ast + 1) { s with heap := s.heap + 1 }
  jl_apply := fun f args s =>
    if f == 0 then .error (55 + args.length) { s with jl_pgcstack := [none] :: s.jl_pgcstack }
    else .value (f + args.sum) s
  jl_symbol := fun str => str.length
  jl_typeof := fun o => o % 2
  jl_field_index := fun t sy s => if sy < 3 then .value sy s else .error (1000 + t) s
  jl_get_nth_field := fun o i s => .value (10 * o + i) s
  jl_error := fun msg => msg.length

/-- A sample runtime whose evaluator rejects every form with the error 7. -/
def failingRuntime : Collaborators :=
  { sampleRuntime with
    jl_toplevel_eval := fun _ s => .error 7 s }

/-- A runtime state before initialization: nothing rooted, no error. -/
def freshRuntime : Runtime :=
  { jl_pgcstack := [], jl_exception_in_transit := none, jl_defer_signal := 0,
    jl_main_module := none, julia_home := none, image_file := none, heap := 0 }

/-- A state before initialization, with an empty log. -/
def freshWorld : World :=
  { rt := freshRuntime, trace := [] }

/-- An initialized state with one frame rooted by the host and an earlier
error still in the Exception Channel. -/
def busyWorld : World :=
  { rt := { jl_pgcstack := [[some 8]], jl_exception_in_transit := some 42, jl_defer_signal := 0,
            jl_main_module := some 1, julia_home := some "home", image_file := none, heap := 5 },
    trace := [] }

/-! ## Lemmas on the shared mechanisms -/

theorem protectedCall_value {α : Type} (fr : RootFrame) (req : Request)
    (c : Runtime → Signal α) (w : World) (v : α) (s1 : Runtime)
    (h : c (rooted fr w.rt) = .value v s1) :
    protectedCall fr req c w =
      .ok (some v)
        { rt := { s1 with jl_pgcstack := w.rt.jl_pgcstack, jl_exception_in_transit := none },
          trace := w.trace ++ [⟨req, rooted fr w.rt⟩] } := by
  simp only [rooted] at h
  simp [protectedCall, JL_TRY, bind, Api.bind, invoke, JL_GC_PUSH, JL_GC_POP,
    jl_exception_clear, jl_throw, pure, h, rooted]

theorem protectedCall_error {α : Type} (fr : RootFrame) (req : Request)
    (c : Runtime → Signal α) (w : World) (e : Handle) (s1 : Runtime)
    (h : c (rooted fr w.rt) = .error e s1) :
    protectedCall fr req c w =
      .ok none
        { rt := { s1 with jl_pgcstack := w.rt.jl_pgcstack, jl_exception_in_transit := some e },
          trace := w.trace ++ [⟨req, rooted fr w.rt⟩] } := by
  simp only [rooted] at h
  simp [protectedCall, JL_TRY, bind, Api.bind, invoke, JL_GC_PUSH, JL_GC_POP,
    jl_exception_clear, jl_throw, pure, h, rooted]

/-- A protected call always returns, with the Root Stack it was entered with
and one more entry in the log. -/
theorem protectedCall_balanced {α : Type} (fr : RootFrame) (req : Request)
    (c : Runtime → Signal α) (w : World) :
    ∃ r w', protectedCall fr req c w = .ok r w' ∧ w'.rt.jl_pgcstack = w.rt.jl_pgcstack ∧
      w'.trace = w.trace ++ [⟨req, rooted fr w.rt⟩] := by
  cases h : c (rooted fr w.rt) with
  | value v s1 => exact ⟨_, _, protectedCall_value fr req c w v s1 h, rfl, rfl⟩
  | error e s1 => exact ⟨_, _, protectedCall_error fr req c w e s1 h, rfl, rfl⟩

theorem jl_call0_eq (C : Collaborators) (f : Handle) :
    jl_call0 C f = protectedCall [some f] (.jl_apply f []) (C.jl_apply f []) := rfl

theorem jl_call1_eq (C : Collaborators) (f a : Handle) :
    jl_call1 C f a = protectedCall [some f, some a] (.jl_apply f [a]) (C.jl_apply f [a]) := rfl

theorem jl_call2_eq (C : Collaborators) (f a b : Handle) :
    jl_call2 C f a b =
      protectedCall [some f, some a, some b] (.jl_apply f [a, b]) (C.jl_apply f [a, b]) := rfl

theorem jl_call3_eq (C : Collaborators) (f a b c : Handle) :
    jl_call3 C f a b c =
      protectedCall [some f, some a, some b, some c] (.jl_apply f [a, b, c])
        (C.jl_apply f [a, b, c]) := rfl

/-- The copy loop of `jl_call`, started at index `j + 1` with the first `j`
arguments already in place, fills the remaining `k` slots. -/
theorem jl_call_loop_fill (f : Handle) (args : List Handle) (rest : List RootFrame) :
    ∀ (k j : Nat) (w : World), j + k = args.length →
      w.rt.jl_pgcstack
        = (some f :: ((args.take j).map some ++ List.replicate k none)) :: rest →
      jl_call_loop args (j + 1) k w
        = .ok () { w with rt := { w.rt with jl_pgcstack := (some f :: args.map some) :: rest } } := by
  intro k
  induction k with
  | zero =>
      intro j w hj hw
      have : args.take j = args := List.take_of_length_le (by omega)
      simp [jl_call_loop, pure, this] at hw ⊢
      cases w with
      | mk rt tr =>
        cases rt
        simp_all
  | succ k ih =>
      intro j w hj hw
      have hlt : j < args.length := by omega
      simp only [jl_call_loop, bind, Api.bind, writeSlot, hw]
      have hset : (some f :: ((args.take j).map some ++ List.replicate (k + 1) none)).set (j + 1)
            (args[j + 1 - 1]?)
          = some f :: ((args.take (j + 1)).map some ++ List.replicate k none) := by
        simp only [List.set_cons_succ, Nat.add_sub_cancel]
        congr 1
        have hl : ((args.take j).map some).length = j := by simp; omega
        rw [List.set_append_right _ _ (by omega)]
        rw [hl]
        have hg : args[j]? = some args[j] := List.getElem?_eq_getElem hlt
        simp only [Nat.sub_self, List.replicate_succ, List.set_cons_zero, List.take_succ,
          List.map_append, List.append_assoc]
        rw [hg]
        rfl
      rw [hset]
      have := ih (j + 1) { w with rt := { w.rt with jl_pgcstack :=
          (some f :: ((args.take (j + 1)).map some ++ List.replicate k none)) :: rest } }
          (by omega) rfl
      simpa using this

/-- The generic dispatcher is a protected call on the frame holding the target
followed by the arguments. -/
theorem jl_call_eq (C : Collaborators) (f : Handle) (args : List Handle) :
    jl_call C f args
      = protectedCall (some f :: args.map some) (.jl_apply f args) (C.jl_apply f args) := by
  funext w
  have hloop := jl_call_loop_fill f args w.rt.jl_pgcstack args.length 0
    { w with rt := { w.rt with jl_pgcstack :=
        (some f :: List.replicate args.length none) :: w.rt.jl_pgcstack } }
    (by simp) (by simp)
  simp only [Nat.zero_add] at hloop
  simp only [jl_call, protectedCall, JL_TRY, bind, Api.bind, JL_GC_PUSHARGS, JL_GC_PUSH, writeSlot,
    List.replicate_succ, List.set_cons_zero, Nat.add_sub_cancel, hloop]

theorem jl_eval_string_parse_error (C : Collaborators) (str : String) (w : World)
    (e : Handle) (s1 : Runtime) (h : C.jl_parse_input_line str w.rt = .error e s1) :
    jl_eval_string C str w =
      .ok none
        { rt := { s1 with jl_pgcstack := w.rt.jl_pgcstack, jl_exception_in_transit := some e },
          trace := w.trace ++ [⟨.jl_parse_input_line str, w.rt⟩] } := by
  simp [jl_eval_string, JL_TRY, bind, Api.bind, invoke, jl_throw, pure, h]

theorem jl_eval_string_value (C : Collaborators) (str : String) (w : World)
    (ast v : Handle) (s1 s2 : Runtime)
    (h1 : C.jl_parse_input_line str w.rt = .value ast s1)
    (h2 : C.jl_toplevel_eval ast (rooted [some ast] (returnedTo w.rt.jl_pgcstack s1))
      = .value v s2) :
    jl_eval_string C str w =
      .ok (some v)
        { rt := { s2 with jl_pgcstack := w.rt.jl_pgcstack, jl_exception_in_transit := none },
          trace := w.trace ++ [⟨.jl_parse_input_line str, w.rt⟩,
            ⟨.jl_toplevel_eval ast, rooted [some ast] (returnedTo w.rt.jl_pgcstack s1)⟩] } := by
  simp only [rooted, returnedTo] at h2
  simp [jl_eval_string, JL_TRY, bind, Api.bind, invoke, jl_throw, pure, h1, h2, JL_GC_PUSH1, JL_GC_PUSH,
    JL_GC_POP, jl_exception_clear, rooted, returnedTo]

theorem jl_eval_string_eval_error (C : Collaborators) (str : String) (w : World)
    (ast e : Handle) (s1 s2 : Runtime)
    (h1 : C.jl_parse_input_line str w.rt = .value ast s1)
    (h2 : C.jl_toplevel_eval ast (rooted [some ast] (returnedTo w.rt.jl_pgcstack s1))
      = .error e s2) :
    jl_eval_string C str w =
      .ok none
        { rt := { s2 with jl_pgcstack := w.rt.jl_pgcstack, jl_exception_in_transit := some e },
          trace := w.trace ++ [⟨.jl_parse_input_line str, w.rt⟩,
            ⟨.jl_toplevel_eval ast, rooted [some ast] (returnedTo w.rt.jl_pgcstack s1)⟩] } := by
  simp only [rooted, returnedTo] at h2
  simp [jl_eval_string, JL_TRY, bind, Api.bind, invoke, jl_throw, pure, h1, h2, JL_GC_PUSH1, JL_GC_PUSH,
    JL_GC_POP, jl_exception_clear, rooted, returnedTo]

/-- An evaluation always returns, with the Root Stack it was entered with; it
submits exactly its own text to the parser. -/
theorem jl_eval_string_balanced (C : Collaborators) (str : String) (w : World) :
    ∃ r w', jl_eval_string C str w = .ok r w' ∧ w'.rt.jl_pgcstack = w.rt.jl_pgcstack ∧
      evalRequests w'.trace = evalRequests w.trace ++ [str] := by
  cases h1 : C.jl_parse_input_line str w.rt with
  | error e s1 =>
      exact ⟨_, _, jl_eval_string_parse_error C str w e s1 h1, rfl, by simp [evalRequests]⟩
  | value ast s1 =>
      cases h2 : C.jl_toplevel_eval ast (rooted [some ast] (returnedTo w.rt.jl_pgcstack s1)) with
      | value v s2 =>
          exact ⟨_, _, jl_eval_string_value C str w ast v s1 s2 h1 h2, rfl, by simp [evalRequests]⟩
      | error e s2 =>
          exact ⟨_, _, jl_eval_string_eval_error C str w ast e s1 s2 h1 h2, rfl,
            by simp [evalRequests]⟩

/-- Every host call returns with the Root Stack it was entered with. -/
theorem hostCall_balanced (C : Collaborators) (c : HostCall) (w : World) :
    ∃ r w', c.run C w = .ok r w' ∧ w'.rt.jl_pgcstack = w.rt.jl_pgcstack := by
  cases c with
  | call f args =>
      obtain ⟨r, w', h, hs, _⟩ := protectedCall_balanced (some f :: args.map some)
        (.jl_apply f args) (C.jl_apply f args) w
      exact ⟨r, w', by simpa [HostCall.run, jl_call_eq] using h, hs⟩
  | call0 f =>
      obtain ⟨r, w', h, hs, _⟩ := protectedCall_balanced [some f] (.jl_apply f [])
        (C.jl_apply f []) w
      exact ⟨r, w', h, hs⟩
  | call1 f a =>
      obtain ⟨r, w', h, hs, _⟩ := protectedCall_balanced [some f, some a] (.jl_apply f [a])
        (C.jl_apply f [a]) w
      exact ⟨r, w', h, hs⟩
  | call2 f a b =>
      obtain ⟨r, w', h, hs, _⟩ := protectedCall_balanced [some f, some a, some b]
        (.jl_apply f [a, b]) (C.jl_apply f [a, b]) w
      exact ⟨r, w', h, hs⟩
  | call3 f a b c =>
      obtain ⟨r, w', h, hs, _⟩ := protectedCall_balanced [some f, some a, some b, some c]
        (.jl_apply f [a, b, c]) (C.jl_apply f [a, b, c]) w
      exact ⟨r, w', h, hs⟩
  | eval str =>
      obtain ⟨r, w', h, hs, _⟩ := jl_eval_string_balanced C str w
      exact ⟨r, w', h, hs⟩

theorem hostCall_depth (C : Collaborators) (c : HostCall) (w : World) :
    ∃ r w', c.run C w = .ok r w' ∧ depth w' = depth w := by
  obtain ⟨r, w', h, hs⟩ := hostCall_balanced C c w
  exact ⟨r, w', h, by simp [depth, hs]⟩

/-! ## The properties -/

/-- C1 (root-frame balance): whatever the Root Stack, the target, the arguments
and the behaviour of the collaborators (normal return or raised error), each of
`jl_call`, `jl_call0` .. `jl_call3` and `jl_eval_string` returns, and the Root
Stack then has the depth it had on entry; along every finite sequence of such
calls, the depth after each call is the depth before it. -/
theorem root_frame_balance (C : Collaborators) :
    (∀ f args w, ∃ r w', jl_call C f args w = .ok r w' ∧ depth w' = depth w) ∧
    (∀ f w, ∃ r w', jl_call0 C f w = .ok r w' ∧ depth w' = depth w) ∧
    (∀ f a w, ∃ r w', jl_call1 C f a w = .ok r w' ∧ depth w' = depth w) ∧
    (∀ f a b w, ∃ r w', jl_call2 C f a b w = .ok r w' ∧ depth w' = depth w) ∧
    (∀ f a b c w, ∃ r w', jl_call3 C f a b c w = .ok r w' ∧ depth w' = depth w) ∧
    (∀ str w, ∃ r w', jl_eval_string C str w = .ok r w' ∧ depth w' = depth w) ∧
    (∀ (cs : List HostCall) (w : World),
      List.Chain (fun before after => depth after = depth before) w (runCalls C cs w)) := by
  refine ⟨fun f args w => hostCall_depth C (.call f args) w,
    fun f w => hostCall_depth C (.call0 f) w,
    fun f a w => hostCall_depth C (.call1 f a) w,
    fun f a b w => hostCall_depth C (.call2 f a b) w,
    fun f a b c w => hostCall_depth C (.call3 f a b c) w,
    fun str w => hostCall_depth C (.eval str) w, ?_⟩
  intro cs
  induction cs with
  | nil => intro w; exact List.Chain.nil
  | cons c cs ih =>
      intro w
      obtain ⟨r, w', h, hd⟩ := hostCall_depth C c w
      simp only [runCalls]
      refine List.Chain.cons ?_ (ih _)
      simp [h, Res.world, hd]

theorem exception_occurred_cleared (s : Runtime) (stack : List RootFrame) :
    jl_exception_occurred { s with jl_pgcstack := stack, jl_exception_in_transit := none } = none := by
  simp [jl_exception_occurred]

theorem exception_occurred_set (s : Runtime) (stack : List RootFrame) (e : Handle) :
    jl_exception_occurred { s with jl_pgcstack := stack, jl_exception_in_transit := some e }
      = some e := by
  simp [jl_exception_occurred]

/-- A protected call whose collaborator returns `v` returns `v` and leaves the
Exception Channel empty. -/
theorem protectedCall_success {α : Type} (fr : RootFrame) (req : Request)
    (c : Runtime → Signal α) (w : World) (v : α) (s1 : Runtime)
    (h : c (rooted fr w.rt) = .value v s1) :
    (protectedCall fr req c w).result = some (some v) ∧
      jl_exception_occurred (protectedCall fr req c w).world.rt = none := by
  rw [protectedCall_value fr req c w v s1 h]
  exact ⟨rfl, exception_occurred_cleared s1 _⟩

/-- A protected call whose collaborator raises `e` returns "none" and leaves
`e` in the Exception Channel. -/
theorem protectedCall_failure {α : Type} (fr : RootFrame) (req : Request)
    (c : Runtime → Signal α) (w : World) (e : Handle) (s1 : Runtime)
    (h : c (rooted fr w.rt) = .error e s1) :
    (protectedCall fr req c w).result = some none ∧
      jl_exception_occurred (protectedCall fr req c w).world.rt = some e := by
  rw [protectedCall_error fr req c w e s1 h]
  exact ⟨rfl, exception_occurred_set s1 _ e⟩

/-- C2 (clear-on-success): whatever the Exception Channel holds on entry, when
`jl_apply` (for `jl_call`, `jl_call0` .. `jl_call3`), or the parser followed by
the evaluator (for `jl_eval_string`), return without raising and the value
produced is `v`, the operation returns exactly `v` and `jl_exception_occurred`
queried right afterwards returns "none". -/
theorem clear_on_success (C : Collaborators) (w : World) :
    (∀ f args v s1, C.jl_apply f args (rooted (some f :: args.map some) w.rt) = .value v s1 →
      (jl_call C f args w).result = some (some v) ∧
        jl_exception_occurred (jl_call C f args w).world.rt = none) ∧
    (∀ f v s1, C.jl_apply f [] (rooted [some f] w.rt) = .value v s1 →
      (jl_call0 C f w).result = some (some v) ∧
        jl_exception_occurred (jl_call0 C f w).world.rt = none) ∧
    (∀ f a v s1, C.jl_apply f [a] (rooted [some f, some a] w.rt) = .value v s1 →
      (jl_call1 C f a w).result = some (some v) ∧
        jl_exception_occurred (jl_call1 C f a w).world.rt = none) ∧
    (∀ f a b v s1, C.jl_apply f [a, b] (rooted [some f, some a, some b] w.rt) = .value v s1 →
      (jl_call2 C f a b w).result = some (some v) ∧
        jl_exception_occurred (jl_call2 C f a b w).world.rt = none) ∧
    (∀ f a b c v s1,
      C.jl_apply f [a, b, c] (rooted [some f, some a, some b, some c] w.rt) = .value v s1 →
      (jl_call3 C f a b c w).result = some (some v) ∧
        jl_exception_occurred (jl_call3 C f a b c w).world.rt = none) ∧
    (∀ str ast v s1 s2, C.jl_parse_input_line str w.rt = .value ast s1 →
      C.jl_toplevel_eval ast (rooted [some ast] (returnedTo w.rt.jl_pgcstack s1)) = .value v s2 →
      (jl_eval_string C str w).result = some (some v) ∧
        jl_exception_occurred (jl_eval_string C str w).world.rt = none) := by
  refine ⟨?_, ?_, ?_, ?_, ?_, ?_⟩
  · intro f args v s1 h
    rw [jl_call_eq]
    exact protectedCall_success _ _ _ w v s1 h
  · intro f v s1 h
    exact protectedCall_success _ _ _ w v s1 h
  · intro f a v s1 h
    exact protectedCall_success _ _ _ w v s1 h
  · intro f a b v s1 h
    exact protectedCall_success _ _ _ w v s1 h
  · intro f a b c v s1 h
    exact protectedCall_success _ _ _ w v s1 h
  · intro str ast v s1 s2 h1 h2
    rw [jl_eval_string_value C str w ast v s1 s2 h1 h2]
    exact ⟨rfl, exception_occurred_cleared s2 _⟩

/-- Witness of C2 in a state whose Exception Channel holds the earlier error
42: each of the six operations succeeds in the sample runtime, returns the
collaborator's value and leaves `jl_exception_occurred` at "none". -/
theorem clear_on_success_witness :
    jl_exception_occurred busyWorld.rt = some 42 ∧
    ((jl_call sampleRuntime 5 [1, 2, 3] busyWorld).result = some (some 11) ∧
      jl_exception_occurred (jl_call sampleRuntime 5 [1, 2, 3] busyWorld).world.rt = none) ∧
    ((jl_call0 sampleRuntime 5 busyWorld).result = some (some 5) ∧
      jl_exception_occurred (jl_call0 sampleRuntime 5 busyWorld).world.rt = none) ∧
    ((jl_call1 sampleRuntime 5 1 busyWorld).result = some (some 6) ∧
      jl_exception_occurred (jl_call1 sampleRuntime 5 1 busyWorld).world.rt = none) ∧
    ((jl_call2 sampleRuntime 5 1 2 busyWorld).result = some (some 8) ∧
      jl_exception_occurred (jl_call2 sampleRuntime 5 1 2 busyWorld).world.rt = none) ∧
    ((jl_call3 sampleRuntime 5 1 2 3 busyWorld).result = some (some 11) ∧
      jl_exception_occurred (jl_call3 sampleRuntime 5 1 2 3 busyWorld).world.rt = none) ∧
    ((jl_eval_string sampleRuntime "1 + 1" busyWorld).result = some (some 6) ∧
      jl_exception_occurred (jl_eval_string sampleRuntime "1 + 1" busyWorld).world.rt = none) :=
  ⟨by decide,
    (clear_on_success sampleRuntime busyWorld).1 5 [1, 2, 3] 11
      (rooted [some 5, some 1, some 2, some 3] busyWorld.rt) (by decide),
    (clear_on_success sampleRuntime busyWorld).2.1 5 5 (rooted [some 5] busyWorld.rt) (by decide),
    (clear_on_success sampleRuntime busyWorld).2.2.1 5 1 6
      (rooted [some 5, some 1] busyWorld.rt) (by decide),
    (clear_on_success sampleRuntime busyWorld).2.2.2.1 5 1 2 8
      (rooted [some 5, some 1, some 2] busyWorld.rt) (by decide),
    (clear_on_success sampleRuntime busyWorld).2.2.2.2.1 5 1 2 3 11
      (rooted [some 5, some 1, some 2, some 3] busyWorld.rt) (by decide),
    (clear_on_success sampleRuntime busyWorld).2.2.2.2.2 "1 + 1" 5
      6 { busyWorld.rt with heap := 6 }
      { jl_pgcstack := [some 5] :: busyWorld.rt.jl_pgcstack, jl_exception_in_transit := some 42,
        jl_defer_signal := 0, jl_main_module := some 1, julia_home := some "home",
        image_file := none, heap := 7 } (by decide) (by decide)⟩

/-- C3 (failure conversion and exception overwrite): whatever the Exception
Channel holds on entry, when `jl_apply` (for `jl_call`, `jl_call0` ..
`jl_call3`), the parser, or the evaluator (for `jl_eval_string`) raises the
error `e`, the operation returns "none" and `jl_exception_occurred` then
reports `e`; a `jl_call` failing with `e1` followed at once by a `jl_call`
failing with `e2` leaves `jl_exception_occurred` reporting `e2`. -/
theorem failure_conversion (C : Collaborators) (w : World) :
    (∀ f args e s1, C.jl_apply f args (rooted (some f :: args.map some) w.rt) = .error e s1 →
      (jl_call C f args w).result = some none ∧
        jl_exception_occurred (jl_call C f args w).world.rt = some e) ∧
    (∀ f e s1, C.jl_apply f [] (rooted [some f] w.rt) = .error e s1 →
      (jl_call0 C f w).result = some none ∧
        jl_exception_occurred (jl_call0 C f w).world.rt = some e) ∧
    (∀ f a e s1, C.jl_apply f [a] (rooted [some f, some a] w.rt) = .error e s1 →
      (jl_call1 C f a w).result = some none ∧
        jl_exception_occurred (jl_call1 C f a w).world.rt = some e) ∧
    (∀ f a b e s1, C.jl_apply f [a, b] (rooted [some f, some a, some b] w.rt) = .error e s1 →
      (jl_call2 C f a b w).result = some none ∧
        jl_exception_occurred (jl_call2 C f a b w).world.rt = some e) ∧
    (∀ f a b c e s1,
      C.jl_apply f [a, b, c] (rooted [some f, some a, some b, some c] w.rt) = .error e s1 →
      (jl_call3 C f a b c w).result = some none ∧
        jl_exception_occurred (jl_call3 C f a b c w).world.rt = some e) ∧
    (∀ str e s1, C.jl_parse_input_line str w.rt = .error e s1 →
      (jl_eval_string C str w).result = some none ∧
        jl_exception_occurred (jl_eval_string C str w).world.rt = some e) ∧
    (∀ str ast e s1 s2, C.jl_parse_input_line str w.rt = .value ast s1 →
      C.jl_toplevel_eval ast (rooted [some ast] (returnedTo w.rt.jl_pgcstack s1)) = .error e s2 →
      (jl_eval_string C str w).result = some none ∧
        jl_exception_occurred (jl_eval_string C str w).world.rt = some e) ∧
    (∀ f1 args1 f2 args2 e1 e2 s1 s2,
      C.jl_apply f1 args1 (rooted (some f1 :: args1.map some) w.rt) = .error e1 s1 →
      C.jl_apply f2 args2
        (rooted (some f2 :: args2.map some) (jl_call C f1 args1 w).world.rt) = .error e2 s2 →
      jl_exception_occurred (jl_call C f1 args1 w).world.rt = some e1 ∧
        jl_exception_occurred (jl_call C f2 args2 (jl_call C f1 args1 w).world).world.rt
          = some e2) := by
  refine ⟨?_, ?_, ?_, ?_, ?_, ?_, ?_, ?_⟩
  · intro f args e s1 h
    rw [jl_call_eq]
    exact protectedCall_failure _ _ _ w e s1 h
  · intro f e s1 h
    exact protectedCall_failure _ _ _ w e s1 h
  · intro f a e s1 h
    exact protectedCall_failure _ _ _ w e s1 h
  · intro f a b e s1 h
    exact protectedCall_failure _ _ _ w e s1 h
  · intro f a b c e s1 h
    exact protectedCall_failure _ _ _ w e s1 h
  · intro str e s1 h
    rw [jl_eval_string_parse_error C str w e s1 h]
    exact ⟨rfl, exception_occurred_set s1 _ e⟩
  · intro str ast e s1 s2 h1 h2
    rw [jl_eval_string_eval_error C str w ast e s1 s2 h1 h2]
    exact ⟨rfl, exception_occurred_set s2 _ e⟩
  · intro f1 args1 f2 args2 e1 e2 s1 s2 h1 h2
    rw [jl_call_eq] at h2 ⊢
    rw [jl_call_eq]
    exact ⟨(protectedCall_failure _ _ _ w e1 s1 h1).2, (protectedCall_failure _ _ _ _ e2 s2 h2).2⟩

/-- Witness of C3 in a state whose Exception Channel holds the earlier error
42: in the sample runtime the callee 0 fails, the text "bad" does not parse and
the form of "abc" does not evaluate; each operation returns "none" with its own
error reported, and two failing calls in a row leave the second error. -/
theorem failure_conversion_witness :
    ((jl_call sampleRuntime 0 [1, 2, 3] busyWorld).result = some none ∧
      jl_exception_occurred (jl_call sampleRuntime 0 [1, 2, 3] busyWorld).world.rt = some 58) ∧
    ((jl_call0 sampleRuntime 0 busyWorld).result = some none ∧
      jl_exception_occurred (jl_call0 sampleRuntime 0 busyWorld).world.rt = some 55) ∧
    ((jl_call1 sampleRuntime 0 1 busyWorld).result = some none ∧
      jl_exception_occurred (jl_call1 sampleRuntime 0 1 busyWorld).world.rt = some 56) ∧
    ((jl_call2 sampleRuntime 0 1 2 busyWorld).result = some none ∧
      jl_exception_occurred (jl_call2 sampleRuntime 0 1 2 busyWorld).world.rt = some 57) ∧
    ((jl_call3 sampleRuntime 0 1 2 3 busyWorld).result = some none ∧
      jl_exception_occurred (jl_call3 sampleRuntime 0 1 2 3 busyWorld).world.rt = some 58) ∧
    ((jl_eval_string sampleRuntime "bad" busyWorld).result = some none ∧
      jl_exception_occurred (jl_eval_string sampleRuntime "bad" busyWorld).world.rt = some 99) ∧
    ((jl_eval_string sampleRuntime "abc" busyWorld).result = some none ∧
      jl_exception_occurred (jl_eval_string sampleRuntime "abc" busyWorld).world.rt = some 77) ∧
    (jl_exception_occurred (jl_call sampleRuntime 0 [1] busyWorld).world.rt = some 56 ∧
      jl_exception_occurred
        (jl_call sampleRuntime 0 [] (jl_call sampleRuntime 0 [1] busyWorld).world).world.rt
        = some 55) :=
  ⟨(failure_conversion sampleRuntime busyWorld).1 0 [1, 2, 3] 58
      (rooted [none] (rooted [some 0, some 1, some 2, some 3] busyWorld.rt)) (by decide),
    (failure_conversion sampleRuntime busyWorld).2.1 0 55
      (rooted [none] (rooted [some 0] busyWorld.rt)) (by decide),
    (failure_conversion sampleRuntime busyWorld).2.2.1 0 1 56
      (rooted [none] (rooted [some 0, some 1] busyWorld.rt)) (by decide),
    (failure_conversion sampleRuntime busyWorld).2.2.2.1 0 1 2 57
      (rooted [none] (rooted [some 0, some 1, some 2] busyWorld.rt)) (by decide),
    (failure_conversion sampleRuntime busyWorld).2.2.2.2.1 0 1 2 3 58
      (rooted [none] (rooted [some 0, some 1, some 2, some 3] busyWorld.rt)) (by decide),
    (failure_conversion sampleRuntime busyWorld).2.2.2.2.2.1 "bad" 99 busyWorld.rt (by decide),
    (failure_conversion sampleRuntime busyWorld).2.2.2.2.2.2.1 "abc" 3 77
      { busyWorld.rt with heap := 6 }
      (rooted [some 3] { busyWorld.rt with heap := 6 }) (by decide) (by decide),
    (failure_conversion sampleRuntime busyWorld).2.2.2.2.2.2.2 0 [1] 0 [] 56 55
      (rooted [none] (rooted [some 0, some 1] busyWorld.rt))
      (rooted [none] (rooted [some 0]
        { busyWorld.rt with jl_exception_in_transit := some 56 })) (by decide) (by decide)⟩

/-- A protected call of `jl_apply` is the dispatch outcome of what `jl_apply`
answers in the state with the frame pushed. -/
theorem protectedCall_apply (C : Collaborators) (f : Handle) (args : List Handle)
    (fr : RootFrame) (w : World) :
    protectedCall fr (.jl_apply f args) (C.jl_apply f args) w
      = dispatchOutcome w f args fr (C.jl_apply f args (rooted fr w.rt)) := by
  cases h : C.jl_apply f args (rooted fr w.rt) with
  | value v s1 => exact protectedCall_value fr _ _ w v s1 h
  | error e s1 => exact protectedCall_error fr _ _ w e s1 h

/-- C10 (rooting during dispatch): each dispatcher is determined by one
invocation of `jl_apply`, on the target and exactly the given argument handles
in order, made in the entry state with one frame `top` pushed: the dispatcher
returns what `dispatchOutcome` derives from the answer of `jl_apply` in that
state. For `jl_call(f, args)` the frame `top` has `args.length + 1` slots, slot
0 holding `f` and slot `i` holding `args[i-1]` for `1 ≤ i ≤ args.length`; for
`jl_call0` .. `jl_call3` it is the frame of the target followed by the 0, 1, 2
or 3 arguments (one slot, holding the target, for `jl_call0`). -/
theorem rooting_during_dispatch (C : Collaborators) (f : Handle) (w : World) :
    (∀ args : List Handle, ∃ top : RootFrame,
      top.length = args.length + 1 ∧
      top[0]? = some (some f) ∧
      (∀ i, 1 ≤ i → i ≤ args.length →
        ∃ a, args[i - 1]? = some a ∧ top[i]? = some (some a)) ∧
      jl_call C f args w = dispatchOutcome w f args top (C.jl_apply f args (rooted top w.rt))) ∧
    jl_call0 C f w = dispatchOutcome w f [] [some f] (C.jl_apply f [] (rooted [some f] w.rt)) ∧
    (∀ a, jl_call1 C f a w
      = dispatchOutcome w f [a] [some f, some a]
          (C.jl_apply f [a] (rooted [some f, some a] w.rt))) ∧
    (∀ a b, jl_call2 C f a b w
      = dispatchOutcome w f [a, b] [some f, some a, some b]
          (C.jl_apply f [a, b] (rooted [some f, some a, some b] w.rt))) ∧
    (∀ a b c, jl_call3 C f a b c w
      = dispatchOutcome w f [a, b, c] [some f, some a, some b, some c]
          (C.jl_apply f [a, b, c] (rooted [some f, some a, some b, some c] w.rt))) := by
  refine ⟨?_, protectedCall_apply C f _ _ w, fun a => protectedCall_apply C f _ _ w,
    fun a b => protectedCall_apply C f _ _ w, fun a b c => protectedCall_apply C f _ _ w⟩
  intro args
  refine ⟨some f :: args.map some, by simp, by simp, ?_, ?_⟩
  · intro i h1 h2
    have hlt : i - 1 < args.length := by omega
    refine ⟨args[i - 1], List.getElem?_eq_getElem hlt, ?_⟩
    obtain ⟨j, rfl⟩ : ∃ j, i = j + 1 := ⟨i - 1, by omega⟩
    simp only [Nat.add_sub_cancel] at hlt ⊢
    simp [List.getElem?_cons_succ, List.getElem?_map, List.getElem?_eq_getElem hlt]
  · rw [jl_call_eq]
    exact protectedCall_apply C f _ _ w

/-- Witness of C10: `jl_call(5, [1, 2, 3])` in the sample runtime is the
dispatch outcome of `jl_apply` on 5 and [1, 2, 3] invoked with a four-slot
frame on top of the host's frame, slot 0 holding 5 and slot 2 the second
argument; the call returns 11, the sum `jl_apply` computes there. -/
theorem rooting_during_dispatch_witness :
    (∃ top : RootFrame,
      top.length = 4 ∧ top[0]? = some (some 5) ∧
      (∃ a, [1, 2, 3][2 - 1]? = some a ∧ top[2]? = some (some a)) ∧
      jl_call sampleRuntime 5 [1, 2, 3] busyWorld
        = dispatchOutcome busyWorld 5 [1, 2, 3] top
            (sampleRuntime.jl_apply 5 [1, 2, 3] (rooted top busyWorld.rt))) ∧
    (jl_call sampleRuntime 5 [1, 2, 3] busyWorld).result = some (some 11) := by
  obtain ⟨top, h1, h2, h3, h4⟩ := (rooting_during_dispatch sampleRuntime 5 busyWorld).1 [1, 2, 3]
  exact ⟨⟨top, h1, h2, h3 2 (by decide) (by decide), h4⟩, by decide⟩

/-- An evaluation always returns; it extends the log by its own parser request,
possibly followed by the evaluator request, and nothing else. -/
theorem jl_eval_string_trace (C : Collaborators) (str : String) (w : World) :
    ∃ r w' tail, jl_eval_string C str w = .ok r w' ∧ w'.trace = w.trace ++ tail ∧
      evalRequests tail = [str] := by
  cases h1 : C.jl_parse_input_line str w.rt with
  | error e s1 =>
      exact ⟨_, _, _, jl_eval_string_parse_error C str w e s1 h1, rfl, by simp [evalRequests]⟩
  | value ast s1 =>
      cases h2 : C.jl_toplevel_eval ast (rooted [some ast] (returnedTo w.rt.jl_pgcstack s1)) with
      | value v s2 =>
          exact ⟨_, _, _, jl_eval_string_value C str w ast v s1 s2 h1 h2, rfl,
            by simp [evalRequests]⟩
      | error e s2 =>
          exact ⟨_, _, _, jl_eval_string_eval_error C str w ast e s1 s2 h1 h2, rfl,
            by simp [evalRequests]⟩

/-- The part of a first call of `jl_init_with_image` that follows the recording
of the configuration: the bootstrap, the three evaluation requests and the
final clearing of the Exception Channel. -/
theorem init_bootstrap (C : Collaborators) (w1 : World) :
    ∃ w' bootstrap,
      ((invokeVoid .julia_init C.julia_init).bind fun _ =>
        (jl_eval_string C "Base.init_parallel()").bind fun _ =>
          (jl_eval_string C "Base.init_bind_addr(ARGS)").bind fun _ =>
            (jl_eval_string C "Base.init_head_sched()").bind fun _ => jl_exception_clear) w1
        = .ok () w' ∧
      w'.trace = w1.trace ++ ⟨.julia_init, w1.rt⟩ :: bootstrap ∧
      evalRequests bootstrap
        = ["Base.init_parallel()", "Base.init_bind_addr(ARGS)", "Base.init_head_sched()"] ∧
      w'.rt.jl_exception_in_transit = none := by
  simp only [Api.bind, invokeVoid]
  obtain ⟨r2, w2, t2, hw2, ht2, he2⟩ := jl_eval_string_trace C "Base.init_parallel()"
    { rt := { C.julia_init w1.rt with jl_pgcstack := w1.rt.jl_pgcstack },
      trace := w1.trace ++ [⟨.julia_init, w1.rt⟩] }
  simp only [hw2]
  obtain ⟨r3, w3, t3, hw3, ht3, he3⟩ := jl_eval_string_trace C "Base.init_bind_addr(ARGS)" w2
  simp only [hw3]
  obtain ⟨r4, w4, t4, hw4, ht4, he4⟩ := jl_eval_string_trace C "Base.init_head_sched()" w3
  simp only [hw4, jl_exception_clear]
  refine ⟨_, t2 ++ t3 ++ t4, rfl, ?_, ?_, rfl⟩
  · simp only [ht4, ht3, ht2]
    simp
  · simp only [evalRequests, List.filterMap_append] at he2 he3 he4 ⊢
    simp [he2, he3, he4]

/-- A first call of `jl_init_with_image` returns; the bootstrap is invoked in
the state left by `libsupport_init` with the configuration recorded in it, the
three evaluation requests follow, and the Exception Channel ends empty. -/
theorem init_first_call (C : Collaborators) (w : World) (home img : Option String)
    (h : jl_is_initialized w.rt = false) :
    ∃ w' bootstrap,
      jl_init_with_image C home img w = .ok () w' ∧
      w'.trace = w.trace ++
        ⟨.libsupport_init, w.rt⟩ ::
        ⟨.julia_init,
          { returnedTo w.rt.jl_pgcstack (C.libsupport_init w.rt) with
            julia_home := home
            image_file :=
              if img != none then img
              else (C.libsupport_init w.rt).image_file }⟩ :: bootstrap ∧
      evalRequests bootstrap
        = ["Base.init_parallel()", "Base.init_bind_addr(ARGS)", "Base.init_head_sched()"] ∧
      w'.rt.jl_exception_in_transit = none := by
  simp only [jl_init_with_image, h, Bool.false_eq_true, if_false, bind, Api.bind, invokeVoid,
    set_julia_home]
  by_cases hi : img = none
  · subst hi
    obtain ⟨w', bs, hrun, ht, he, hx⟩ := init_bootstrap C
      { rt := { returnedTo w.rt.jl_pgcstack (C.libsupport_init w.rt) with julia_home := home },
        trace := w.trace ++ [⟨.libsupport_init, w.rt⟩] }
    refine ⟨w', bs, ?_, ?_, he, hx⟩
    · simpa [Api.bind, pure, returnedTo] using hrun
    · simpa [returnedTo] using ht
  · obtain ⟨w', bs, hrun, ht, he, hx⟩ := init_bootstrap C
      { rt := { returnedTo w.rt.jl_pgcstack (C.libsupport_init w.rt) with
                julia_home := home, image_file := img },
        trace := w.trace ++ [⟨.libsupport_init, w.rt⟩] }
    refine ⟨w', bs, ?_, ?_, he, hx⟩
    · simpa [Api.bind, pure, returnedTo, hi, set_image_file] using hrun
    · simpa [returnedTo, hi] using ht

/-- C4 (initialization idempotence): in every state in which
`jl_is_initialized` holds, `jl_init_with_image(home, img)` and `jl_init(home)`
return at once with the whole state unchanged (configuration, Exception
Channel, Root Stack, sigatomic counter) and the log unchanged, so no
collaborator is invoked and no bootstrap evaluation is requested; hence, when a
first call of `jl_init_with_image` leaves the runtime initialized, a second
call right after it changes nothing. -/
theorem init_idempotent (C : Collaborators) (home img : Option String) :
    (∀ w, jl_is_initialized w.rt = true →
      jl_init_with_image C home img w = .ok () w ∧ jl_init C home w = .ok () w) ∧
    (∀ w home1 img1, jl_is_initialized (jl_init_with_image C home1 img1 w).world.rt = true →
      jl_init_with_image C home img (jl_init_with_image C home1 img1 w).world
        = .ok () (jl_init_with_image C home1 img1 w).world ∧
      jl_init C home (jl_init_with_image C home1 img1 w).world
        = .ok () (jl_init_with_image C home1 img1 w).world) := by
  have key : ∀ (i : Option String) (w : World), jl_is_initialized w.rt = true →
      jl_init_with_image C home i w = .ok () w := by
    intro i w h
    simp [jl_init_with_image, h]
  exact ⟨fun w h => ⟨key img w h, key none w h⟩, fun w home1 img1 h => ⟨key img _ h, key none _ h⟩⟩

/-- Witness of C4: the initialized sample state is left as it is by both forms,
and after a first call from the fresh state in the sample runtime a second call
changes nothing. -/
theorem init_idempotent_witness :
    (jl_init_with_image sampleRuntime (some "other") (some "sys.ji") busyWorld = .ok () busyWorld ∧
      jl_init sampleRuntime (some "other") busyWorld = .ok () busyWorld) ∧
    (jl_init_with_image sampleRuntime (some "other") (some "sys.ji")
        (jl_init_with_image sampleRuntime (some "home") none freshWorld).world
        = .ok () (jl_init_with_image sampleRuntime (some "home") none freshWorld).world ∧
      jl_init sampleRuntime (some "other")
        (jl_init_with_image sampleRuntime (some "home") none freshWorld).world
        = .ok () (jl_init_with_image sampleRuntime (some "home") none freshWorld).world) :=
  ⟨(init_idempotent sampleRuntime (some "other") (some "sys.ji")).1 busyWorld (by decide),
    (init_idempotent sampleRuntime (some "other") (some "sys.ji")).2 freshWorld (some "home") none
      (by decide)⟩

/-- An evaluation followed by code that ignores its value: the code runs in the
world the evaluation ends in, since an evaluation always returns. -/
theorem jl_eval_string_then {β : Type} (C : Collaborators) (str : String) (k : Api β)
    (w : World) :
    ((jl_eval_string C str).bind fun _ => k) w = k (jl_eval_string C str w).world := by
  obtain ⟨r, w', h, _⟩ := jl_eval_string_balanced C str w
  simp [Api.bind, h, Res.world]

/-- The parser requests of the log an evaluation ends with are those it started
with followed by its own text. -/
theorem jl_eval_string_requests (C : Collaborators) (str : String) (w : World) :
    evalRequests (jl_eval_string C str w).world.trace = evalRequests w.trace ++ [str] := by
  obtain ⟨r, w', h, _, he⟩ := jl_eval_string_balanced C str w
  simp [h, Res.world, he]

/-- C5 (first-call initialization): when the runtime is not yet initialized,
`jl_init_with_image(home, img)` returns, and the state it returns in is the one
obtained as follows. `libsupport_init` runs in the entry state; in the state it
leaves, the home directory is set to `home` and the image path to `img` when
one is given, the image path being left as it is otherwise: this is `cfg`. The
runtime bootstrap `julia_init` runs in `cfg`. Then `jl_eval_string` runs on the
three fixed texts, in the order parallelism, bind address, head scheduler, each
in the world the previous step ended in. Last, the Exception Channel is
cleared. So exactly three evaluation requests reach the parser, in that order,
and on return `jl_exception_occurred` is "none" whatever the collaborators did.
`jl_init(home)` is `jl_init_with_image(home, NULL)`. -/
theorem first_call_initialization (C : Collaborators) (w : World) (home img : Option String)
    (h : jl_is_initialized w.rt = false) :
    (∃ (cfg : Runtime) (boot e1 e2 e3 : World),
      cfg = { returnedTo w.rt.jl_pgcstack (C.libsupport_init w.rt) with
              julia_home := home
              image_file := if img != none then img else (C.libsupport_init w.rt).image_file } ∧
      cfg.julia_home = home ∧
      (∀ p, img = some p → cfg.image_file = some p) ∧
      (img = none → cfg.image_file = (C.libsupport_init w.rt).image_file) ∧
      boot = { rt := returnedTo w.rt.jl_pgcstack (C.julia_init cfg),
               trace := w.trace ++ [⟨.libsupport_init, w.rt⟩, ⟨.julia_init, cfg⟩] } ∧
      e1 = (jl_eval_string C "Base.init_parallel()" boot).world ∧
      e2 = (jl_eval_string C "Base.init_bind_addr(ARGS)" e1).world ∧
      e3 = (jl_eval_string C "Base.init_head_sched()" e2).world ∧
      jl_init_with_image C home img w
        = .ok () { e3 with rt := { e3.rt with jl_exception_in_transit := none } } ∧
      evalRequests (jl_init_with_image C home img w).world.trace
        = evalRequests w.trace ++
          ["Base.init_parallel()", "Base.init_bind_addr(ARGS)", "Base.init_head_sched()"] ∧
      jl_exception_occurred (jl_init_with_image C home img w).world.rt = none) ∧
    jl_init C home w = jl_init_with_image C home none w := by
  have hrun : jl_init_with_image C home img w
      = .ok ()
          { (jl_eval_string C "Base.init_head_sched()"
              (jl_eval_string C "Base.init_bind_addr(ARGS)"
                (jl_eval_string C "Base.init_parallel()"
                  { rt := returnedTo w.rt.jl_pgcstack (C.julia_init
                      { returnedTo w.rt.jl_pgcstack (C.libsupport_init w.rt) with
                        julia_home := home
                        image_file :=
                          if img != none then img else (C.libsupport_init w.rt).image_file }),
                    trace := w.trace ++ [⟨.libsupport_init, w.rt⟩,
                      ⟨.julia_init,
                        { returnedTo w.rt.jl_pgcstack (C.libsupport_init w.rt) with
                          julia_home := home
                          image_file :=
                            if img != none then img
                            else (C.libsupport_init w.rt).image_file }⟩] }).world).world).world
            with rt :=
              { (jl_eval_string C "Base.init_head_sched()"
                  (jl_eval_string C "Base.init_bind_addr(ARGS)"
                    (jl_eval_string C "Base.init_parallel()"
                      { rt := returnedTo w.rt.jl_pgcstack (C.julia_init
                          { returnedTo w.rt.jl_pgcstack (C.libsupport_init w.rt) with
                            julia_home := home
                            image_file :=
                              if img != none then img else (C.libsupport_init w.rt).image_file }),
                        trace := w.trace ++ [⟨.libsupport_init, w.rt⟩,
                          ⟨.julia_init,
                            { returnedTo w.rt.jl_pgcstack (C.libsupport_init w.rt) with
                              julia_home := home
                              image_file :=
                                if img != none then img
                                else (C.libsupport_init w.rt).image_file }⟩] }).world).world).world.rt
                with jl_exception_in_transit := none } } := by
    simp only [jl_init_with_image, h, Bool.false_eq_true, if_false, bind]
    by_cases hi : img = none
    · subst hi
      simp only [bne_self_eq_false, Bool.false_eq_true, if_false]
      simp only [Api.bind, invokeVoid, set_julia_home, pure]
      simp only [← Api.bind.eq_1, jl_eval_string_then]
      simp [jl_exception_clear, returnedTo]
    · simp only [bne_iff_ne, ne_eq, hi, not_false_eq_true, if_true]
      simp only [Api.bind, invokeVoid, set_julia_home, set_image_file]
      simp only [← Api.bind.eq_1, jl_eval_string_then]
      simp [jl_exception_clear, returnedTo]
  refine ⟨⟨_, _, _, _, _, rfl, rfl, ?_, ?_, rfl, rfl, rfl, rfl, hrun, ?_, ?_⟩, rfl⟩
  · intro p hp
    simp [hp]
  · intro hn
    simp [hn]
  · rw [hrun]
    change evalRequests (jl_eval_string C _ _).world.trace = _
    rw [jl_eval_string_requests, jl_eval_string_requests, jl_eval_string_requests]
    simp [evalRequests]
  · rw [hrun]
    simp [Res.world, jl_exception_occurred]

/-- Witness of C5: a first call in the fresh state, with an image path, in a
runtime whose evaluator fails on every bootstrap request; the call returns in
the initialized state with the home directory "home", the image path "sys.ji"
and an empty Exception Channel, after the requests to `libsupport_init`,
`julia_init`, and the parser and the evaluator for each of the three texts. -/
theorem first_call_initialization_witness :
    jl_is_initialized freshWorld.rt = false ∧
    ((∃ (cfg : Runtime) (boot e1 e2 e3 : World),
      cfg = { returnedTo freshWorld.rt.jl_pgcstack (failingRuntime.libsupport_init freshWorld.rt) with
              julia_home := some "home"
              image_file :=
                if (some "sys.ji" : Option String) != none then some "sys.ji"
                else (failingRuntime.libsupport_init freshWorld.rt).image_file } ∧
      cfg.julia_home = some "home" ∧
      (∀ p, some "sys.ji" = some p → cfg.image_file = some p) ∧
      ((some "sys.ji" : Option String) = none →
        cfg.image_file = (failingRuntime.libsupport_init freshWorld.rt).image_file) ∧
      boot = { rt := returnedTo freshWorld.rt.jl_pgcstack (failingRuntime.julia_init cfg),
               trace := freshWorld.trace ++ [⟨.libsupport_init, freshWorld.rt⟩, ⟨.julia_init, cfg⟩] } ∧
      e1 = (jl_eval_string failingRuntime "Base.init_parallel()" boot).world ∧
      e2 = (jl_eval_string failingRuntime "Base.init_bind_addr(ARGS)" e1).world ∧
      e3 = (jl_eval_string failingRuntime "Base.init_head_sched()" e2).world ∧
      jl_init_with_image failingRuntime (some "home") (some "sys.ji") freshWorld
        = .ok () { e3 with rt := { e3.rt with jl_exception_in_transit := none } } ∧
      evalRequests
          (jl_init_with_image failingRuntime (some "home") (some "sys.ji") freshWorld).world.trace
        = evalRequests freshWorld.trace ++
          ["Base.init_parallel()", "Base.init_bind_addr(ARGS)", "Base.init_head_sched()"] ∧
      jl_exception_occurred
        (jl_init_with_image failingRuntime (some "home") (some "sys.ji") freshWorld).world.rt
        = none) ∧
    jl_init failingRuntime (some "home") freshWorld
      = jl_init_with_image failingRuntime (some "home") none freshWorld) ∧
    (jl_init_with_image failingRuntime (some "home") (some "sys.ji") freshWorld).world.rt
      = { jl_pgcstack := [], jl_exception_in_transit := none, jl_defer_signal := 0,
          jl_main_module := some 1, julia_home := some "home", image_file := some "sys.ji",
          heap := 3 } ∧
    (jl_init_with_image failingRuntime (some "home") (some "sys.ji") freshWorld).world.trace.map
        (fun ev => ev.request)
      = [.libsupport_init, .julia_init,
          .jl_parse_input_line "Base.init_parallel()", .jl_toplevel_eval 20,
          .jl_parse_input_line "Base.init_bind_addr(ARGS)", .jl_toplevel_eval 25,
          .jl_parse_input_line "Base.init_head_sched()", .jl_toplevel_eval 22] :=
  ⟨by decide,
    first_call_initialization failingRuntime freshWorld (some "home") (some "sys.ji") (by decide),
    by decide, by decide⟩

/-- C6, as stated, fails: in the fresh state with a runtime whose evaluator
raises the error 7 on every form, each bootstrap evaluation fails with 7 (the
same request made directly leaves 7 in the Exception Channel), yet after
`jl_init_with_image` returns `jl_exception_occurred` reports "none". -/
theorem bootstrap_failure_counterexample :
    jl_is_initialized freshWorld.rt = false ∧
    (∀ ast s, failingRuntime.jl_toplevel_eval ast s = .error 7 s) ∧
    jl_exception_occurred
      (jl_eval_string failingRuntime "Base.init_parallel()" freshWorld).world.rt = some 7 ∧
    evalRequests (jl_init_with_image failingRuntime (some "home") none freshWorld).world.trace
      = ["Base.init_parallel()", "Base.init_bind_addr(ARGS)", "Base.init_head_sched()"] ∧
    jl_exception_occurred
      (jl_init_with_image failingRuntime (some "home") none freshWorld).world.rt = none :=
  ⟨by decide, fun _ _ => rfl, by decide, by decide, by decide⟩

/-- C6 as amended: a bootstrap evaluation that fails with `e`, at the parser or
at the evaluator, leaves `e` in the Exception Channel when that evaluation
returns, as any evaluation failure does; but a first call of
`jl_init_with_image` clears the channel before it returns, so
`jl_exception_occurred` after it reports "none", for every collaborator
behaviour. -/
theorem bootstrap_failure_cleared (C : Collaborators) (w : World) (home img : Option String)
    (h : jl_is_initialized w.rt = false) :
    (∀ str w1 e s1, C.jl_parse_input_line str w1.rt = .error e s1 →
      jl_exception_occurred (jl_eval_string C str w1).world.rt = some e) ∧
    (∀ str w1 ast e s1 s2, C.jl_parse_input_line str w1.rt = .value ast s1 →
      C.jl_toplevel_eval ast (rooted [some ast] (returnedTo w1.rt.jl_pgcstack s1)) = .error e s2 →
      jl_exception_occurred (jl_eval_string C str w1).world.rt = some e) ∧
    (jl_init_with_image C home img w).result = some () ∧
    jl_exception_occurred (jl_init_with_image C home img w).world.rt = none := by
  refine ⟨?_, ?_, ?_, ?_⟩
  · intro str w1 e s1 h1
    rw [jl_eval_string_parse_error C str w1 e s1 h1]
    exact exception_occurred_set s1 _ e
  · intro str w1 ast e s1 s2 h1 h2
    rw [jl_eval_string_eval_error C str w1 ast e s1 s2 h1 h2]
    exact exception_occurred_set s2 _ e
  · obtain ⟨w', bs, hrun, _, _, _⟩ := init_first_call C w home img h
    rw [hrun]
    rfl
  · obtain ⟨w', bs, hrun, _, _, hx⟩ := init_first_call C w home img h
    rw [hrun]
    simp [Res.world, jl_exception_occurred, hx]

/-- Witness of the amended C6 in the runtime whose evaluator always fails: the
text "bad" fails at the parser with 99, the text "abc" fails at the evaluator
with 7, and a first call of `jl_init_with_image`, all of whose bootstrap
evaluations fail, ends with an empty Exception Channel. -/
theorem bootstrap_failure_cleared_witness :
    jl_exception_occurred (jl_eval_string failingRuntime "bad" busyWorld).world.rt = some 99 ∧
    jl_exception_occurred (jl_eval_string failingRuntime "abc" busyWorld).world.rt = some 7 ∧
    (jl_init_with_image failingRuntime (some "home") none freshWorld).result = some () ∧
    jl_exception_occurred
      (jl_init_with_image failingRuntime (some "home") none freshWorld).world.rt = none :=
  ⟨(bootstrap_failure_cleared failingRuntime freshWorld (some "home") none (by decide)).1
      "bad" busyWorld 99 busyWorld.rt (by decide),
    (bootstrap_failure_cleared failingRuntime freshWorld (some "home") none (by decide)).2.1
      "abc" busyWorld 3 7 { busyWorld.rt with heap := 6 }
      (rooted [some 3] { busyWorld.rt with heap := 6 }) (by decide) (by decide),
    (bootstrap_failure_cleared failingRuntime freshWorld (some "home") none (by decide)).2.2⟩

theorem sigatomic_begin_run (w : World) :
    jl_sigatomic_begin w
      = .ok () { w with rt := { w.rt with jl_defer_signal := w.rt.jl_defer_signal + 1 } } := rfl

theorem sigatomic_end_zero (C : Collaborators) (w : World) (h : w.rt.jl_defer_signal = 0) :
    jl_sigatomic_end C w
      = .unwind
          { w with
            rt :=
              { w.rt with
                jl_exception_in_transit :=
                  some (C.jl_error "sigatomic_end called in non-sigatomic region") } } := by
  simp [jl_sigatomic_end, h, bind, Api.bind, jl_error, jl_throw]

theorem sigatomic_end_nonzero (C : Collaborators) (w : World) (h : w.rt.jl_defer_signal ≠ 0) :
    jl_sigatomic_end C w
      = .ok () { w with rt := { w.rt with jl_defer_signal := w.rt.jl_defer_signal - 1 } } := by
  simp [jl_sigatomic_end, h, bind, Api.bind, pure, JL_SIGATOMIC_END]

/-- Calling `jl_sigatomic_begin` `n` times returns and adds `n` to the counter. -/
theorem times_begin (n : Nat) (w : World) :
    times jl_sigatomic_begin n w
      = .ok () { w with rt := { w.rt with jl_defer_signal := w.rt.jl_defer_signal + n } } := by
  induction n generalizing w with
  | zero => simp [times, pure]
  | succ n ih =>
      simp only [times, bind, Api.bind, sigatomic_begin_run, ih]
      simp only [Res.ok.injEq, true_and, World.mk.injEq, and_true, Runtime.mk.injEq]
      push_cast
      omega

/-- From a counter of at least `n`, `n` calls of `jl_sigatomic_end` return and
take `n` off the counter. -/
theorem times_end (C : Collaborators) (n : Nat) (w : World) (h : (n : Int) ≤ w.rt.jl_defer_signal) :
    times (jl_sigatomic_end C) n w
      = .ok () { w with rt := { w.rt with jl_defer_signal := w.rt.jl_defer_signal - n } } := by
  induction n generalizing w with
  | zero => simp [times, pure]
  | succ n ih =>
      have hne : w.rt.jl_defer_signal ≠ 0 := by push_cast at h; omega
      simp only [times, bind, Api.bind, sigatomic_end_nonzero C w hne]
      rw [ih _ (by push_cast at h; simp only; omega)]
      simp only [Res.ok.injEq, true_and, World.mk.injEq, and_true, Runtime.mk.injEq]
      push_cast
      omega

/-- C7 (sigatomic nesting): for every `n` and every starting counter value `c`
(a natural number, the counter being never negative), `n` calls of
`jl_sigatomic_begin` followed by `n` calls of `jl_sigatomic_end` all return, none
reporting a usage error, and leave the counter equal to `c`; from the counter 0
the sequence begin, begin, end, end returns at every step with the counter at
1, 2, 1 and finally 0, so nonzero at every intermediate point. -/
theorem sigatomic_nesting (C : Collaborators) (w : World) :
    (∀ (n c : Nat), w.rt.jl_defer_signal = (c : Int) →
      ∃ w', (do times jl_sigatomic_begin n; times (jl_sigatomic_end C) n) w = .ok () w' ∧
        w'.rt.jl_defer_signal = (c : Int)) ∧
    (w.rt.jl_defer_signal = 0 →
      ∃ w1 w2 w3 w4,
        jl_sigatomic_begin w = .ok () w1 ∧ jl_sigatomic_begin w1 = .ok () w2 ∧
        jl_sigatomic_end C w2 = .ok () w3 ∧ jl_sigatomic_end C w3 = .ok () w4 ∧
        w1.rt.jl_defer_signal = 1 ∧ w2.rt.jl_defer_signal = 2 ∧
        w3.rt.jl_defer_signal = 1 ∧ w4.rt.jl_defer_signal = 0) := by
  constructor
  · intro n c hc
    simp only [bind, Api.bind, times_begin]
    rw [times_end C n _ (by simp only [hc]; omega)]
    exact ⟨_, rfl, by simp [hc]⟩
  · intro h0
    refine ⟨_, _, _, _, sigatomic_begin_run w, sigatomic_begin_run _,
      sigatomic_end_nonzero C _ (by simp [h0]), sigatomic_end_nonzero C _ (by simp [h0]),
      by simp [h0], by simp [h0], by simp [h0], by simp [h0]⟩

/-- Witness of C7: three nested regions opened and closed from a counter of 2,
and the sequence begin, begin, end, end from the fresh state. -/
theorem sigatomic_nesting_witness :
    (∃ w', (do times jl_sigatomic_begin 3; times (jl_sigatomic_end sampleRuntime) 3)
        { freshWorld with rt := { freshRuntime with jl_defer_signal := 2 } } = .ok () w' ∧
      w'.rt.jl_defer_signal = ((2 : Nat) : Int)) ∧
    (∃ w1 w2 w3 w4,
      jl_sigatomic_begin freshWorld = .ok () w1 ∧ jl_sigatomic_begin w1 = .ok () w2 ∧
      jl_sigatomic_end sampleRuntime w2 = .ok () w3 ∧
      jl_sigatomic_end sampleRuntime w3 = .ok () w4 ∧
      w1.rt.jl_defer_signal = 1 ∧ w2.rt.jl_defer_signal = 2 ∧
      w3.rt.jl_defer_signal = 1 ∧ w4.rt.jl_defer_signal = 0) :=
  ⟨(sigatomic_nesting sampleRuntime
      { freshWorld with rt := { freshRuntime with jl_defer_signal := 2 } }).1 3 2 (by decide),
    (sigatomic_nesting sampleRuntime freshWorld).2 (by decide)⟩

/-- Every guard call keeps a non-negative counter non-negative. -/
theorem sigCall_nonneg (C : Collaborators) (c : SigCall) (w : World)
    (h : 0 ≤ w.rt.jl_defer_signal) : 0 ≤ (c.run C w).world.rt.jl_defer_signal := by
  cases c with
  | sigatomic_begin =>
      simp only [SigCall.run, sigatomic_begin_run, Res.world]
      omega
  | sigatomic_end =>
      by_cases h0 : w.rt.jl_defer_signal = 0
      · simp [SigCall.run, sigatomic_end_zero C w h0, Res.world, h0]
      · simp only [SigCall.run, sigatomic_end_nonzero C w h0, Res.world]
        omega

theorem runSig_nonneg (C : Collaborators) (ops : List SigCall) :
    ∀ w : World, 0 ≤ w.rt.jl_defer_signal → ∀ w' ∈ runSig C ops w, 0 ≤ w'.rt.jl_defer_signal := by
  induction ops with
  | nil => intro w _ w' hw'; simp [runSig] at hw'
  | cons c cs ih =>
      intro w h w' hw'
      simp only [runSig, List.mem_cons] at hw'
      rcases hw' with rfl | hw'
      · exact sigCall_nonneg C c w h
      · exact ih _ (sigCall_nonneg C c w h) w' hw'

/-- C8 (sigatomic underflow): `jl_sigatomic_end` reports a usage error (it does
not return; the error of the message "sigatomic_end called in non-sigatomic
region" is raised) if and only if the counter is 0 on entry; in that case the
counter is left at 0, and otherwise the call returns with the counter
decremented by exactly one; hence along every sequence of begin/end calls
started from the counter 0, the counter is never negative. -/
theorem sigatomic_underflow (C : Collaborators) (w : World) :
    ((jl_sigatomic_end C w).result = none ↔ w.rt.jl_defer_signal = 0) ∧
    (w.rt.jl_defer_signal = 0 →
      ∃ w', jl_sigatomic_end C w = .unwind w' ∧ w'.rt.jl_defer_signal = 0 ∧
        w'.rt.jl_exception_in_transit
          = some (C.jl_error "sigatomic_end called in non-sigatomic region")) ∧
    (w.rt.jl_defer_signal ≠ 0 →
      ∃ w', jl_sigatomic_end C w = .ok () w' ∧
        w'.rt.jl_defer_signal = w.rt.jl_defer_signal - 1) ∧
    (w.rt.jl_defer_signal = 0 →
      ∀ (ops : List SigCall), ∀ w' ∈ runSig C ops w, 0 ≤ w'.rt.jl_defer_signal) := by
  refine ⟨?_, ?_, ?_, ?_⟩
  · by_cases h0 : w.rt.jl_defer_signal = 0
    · simp [sigatomic_end_zero C w h0, Res.result, h0]
    · simp [sigatomic_end_nonzero C w h0, Res.result, h0]
  · intro h0
    exact ⟨_, sigatomic_end_zero C w h0, h0, rfl⟩
  · intro h0
    exact ⟨_, sigatomic_end_nonzero C w h0, rfl⟩
  · intro h0 ops
    exact runSig_nonneg C ops w (by omega)

/-- Witness of C8: a lone end on the fresh state is a usage error leaving the
counter at 0, an end on a counter of 2 leaves 1, and the sequence end, begin,
end, end from 0 never shows a negative counter. -/
theorem sigatomic_underflow_witness :
    (∃ w', jl_sigatomic_end sampleRuntime freshWorld = .unwind w' ∧ w'.rt.jl_defer_signal = 0 ∧
      w'.rt.jl_exception_in_transit
        = some (sampleRuntime.jl_error "sigatomic_end called in non-sigatomic region")) ∧
    (∃ w', jl_sigatomic_end sampleRuntime
        { freshWorld with rt := { freshRuntime with jl_defer_signal := 2 } } = .ok () w' ∧
      w'.rt.jl_defer_signal = 2 - 1) ∧
    (∀ w' ∈ runSig sampleRuntime
        [.sigatomic_end, .sigatomic_begin, .sigatomic_end, .sigatomic_end] freshWorld,
      0 ≤ w'.rt.jl_defer_signal) :=
  ⟨(sigatomic_underflow sampleRuntime freshWorld).2.1 (by decide),
    (sigatomic_underflow sampleRuntime
      { freshWorld with rt := { freshRuntime with jl_defer_signal := 2 } }).2.2.1 (by decide),
    (sigatomic_underflow sampleRuntime freshWorld).2.2.2 (by decide) _⟩

/-- C9 (field lookup): when the resolver `jl_field_index`, asked for the symbol
of `fld` in the runtime type of `o`, answers the position `i`, and field `i` of
`o` reads as `v`, `jl_get_field(o, fld)` returns `v` and leaves
`jl_exception_occurred` at "none"; when the resolver raises the lookup error
`e` (the type declares no such field), `jl_get_field` returns "none" and leaves
`e` in the Exception Channel; in both cases the call returns with the Root
Stack unchanged. -/
theorem field_lookup (C : Collaborators) (o : Handle) (fld : String) (w : World) :
    (∀ i v s1 s2,
      C.jl_field_index (C.jl_typeof o) (C.jl_symbol fld) w.rt = .value i s1 →
      C.jl_get_nth_field o i (returnedTo w.rt.jl_pgcstack s1) = .value v s2 →
      (jl_get_field C o fld w).result = some (some v) ∧
        jl_exception_occurred (jl_get_field C o fld w).world.rt = none ∧
        (jl_get_field C o fld w).world.rt.jl_pgcstack = w.rt.jl_pgcstack) ∧
    (∀ e s1,
      C.jl_field_index (C.jl_typeof o) (C.jl_symbol fld) w.rt = .error e s1 →
      (jl_get_field C o fld w).result = some none ∧
        jl_exception_occurred (jl_get_field C o fld w).world.rt = some e ∧
        (jl_get_field C o fld w).world.rt.jl_pgcstack = w.rt.jl_pgcstack) := by
  constructor
  · intro i v s1 s2 h1 h2
    simp only [returnedTo] at h2
    simp [jl_get_field, JL_TRY, bind, Api.bind, invoke, jl_throw, pure, h1, h2,
      jl_exception_clear, Res.result, Res.world, jl_exception_occurred]
  · intro e s1 h1
    simp [jl_get_field, JL_TRY, bind, Api.bind, invoke, jl_throw, pure, h1,
      Res.result, Res.world, jl_exception_occurred]

/-- Witness of C9 in the sample runtime, where symbols below 3 are declared
fields: the field "ab" of the value 4 is found at position 2 and read as 42,
clearing the earlier error; the field "abcd" is not declared and the lookup
error 1000 is left in the channel; the host's frame stays in place. -/
theorem field_lookup_witness :
    ((jl_get_field sampleRuntime 4 "ab" busyWorld).result = some (some 42) ∧
      jl_exception_occurred (jl_get_field sampleRuntime 4 "ab" busyWorld).world.rt = none ∧
      (jl_get_field sampleRuntime 4 "ab" busyWorld).world.rt.jl_pgcstack
        = busyWorld.rt.jl_pgcstack) ∧
    ((jl_get_field sampleRuntime 4 "abcd" busyWorld).result = some none ∧
      jl_exception_occurred (jl_get_field sampleRuntime 4 "abcd" busyWorld).world.rt
        = some 1000 ∧
      (jl_get_field sampleRuntime 4 "abcd" busyWorld).world.rt.jl_pgcstack
        = busyWorld.rt.jl_pgcstack) :=
  ⟨(field_lookup sampleRuntime 4 "ab" busyWorld).1 2 42 busyWorld.rt busyWorld.rt
      (by decide) (by decide),
    (field_lookup sampleRuntime 4 "abcd" busyWorld).2 1000 busyWorld.rt (by decide)⟩

end JlApi
